import Mathlib

/-!
Verification of the adaptive Z-offset search in `resonance_z_probe.py`.

The embedding models the decision logic of the module over exact rationals:
* `OffsetHelper` and its two methods `next_position` / `last_tested_position`
  (source lines 200-236);
* the vibration cycle loops of `ZVibrationHelper.vibrate_n` and
  `ResonanceZProbe._test` (lines 93-98 and 337-340);
* the per-height metric computation of `ResonanceZProbe._test`
  (lines 341-363), with the `try/except ZeroDivisionError` branch made
  explicit;
* the orchestration loop of `ResonanceZProbe.babystep_probe`
  (lines 286-324), with the physical measurement abstracted as a function
  from height to metric, and loop fuel making termination explicit.
-/

/-- State of the `OffsetHelper` object (source lines 200-214).  The Python
attribute `min_precision` may hold `None`: the orchestrator passes the
`samples_tolerance` config value, whose `getfloat` default is `None`
(line 248), so it is modelled as `Option ℚ`.  `current_offset` starts as
`None` (line 212). -/
structure OffsetHelper where
  last_tested_pos : ℚ × Bool
  step : ℚ
  min_precision : Option ℚ
  current_offset : Option ℚ
  finished : Bool
  started : Bool
deriving Repr, DecidableEq

/-- The declared default of the `min_precision` parameter in
`OffsetHelper.__init__` (source line 206): `0.005`. -/
def OffsetHelper.default_min_precision : ℚ := 5 / 1000

/-- `OffsetHelper.__init__(pos, step, min_precision)` (source lines 206-214):
`last_tested_pos = (pos, False)`, offset unset, not finished, not started. -/
def OffsetHelper.init (pos step : ℚ) (min_precision : Option ℚ) : OffsetHelper :=
  { last_tested_pos := (pos, false)
    step := step
    min_precision := min_precision
    current_offset := none
    finished := false
    started := false }

/-- `OffsetHelper.next_position` (source lines 216-230).  The method both
returns the next height and mutates the object, so it is modelled as
returning the value together with the successor state.  The returned value
is an `Option ℚ` because the `finished` branch returns `self.current_offset`,
which is itself optional.  The `.error ()` case models the `TypeError`
Python raises on `self.step <= self.min_precision` when `min_precision` is
`None` (line 226); the exception propagates, so the mutated state is not
observed.  In the `True` branch the code sets `current_offset = pos`, then
conditionally sets `finished`, then returns `pos + self.step` (lines
225-228). -/
def OffsetHelper.next_position (s : OffsetHelper) :
    Except Unit (Option ℚ × OffsetHelper) :=
  if s.finished then .ok (s.current_offset, s)
  else if s.started = false then .ok (some s.last_tested_pos.1, s)
  else if s.last_tested_pos.2 then
    match s.min_precision with
    | none => .error ()
    | some p =>
      if s.step ≤ p then
        .ok (some (s.last_tested_pos.1 + s.step),
             { s with current_offset := some s.last_tested_pos.1, finished := true })
      else
        .ok (some (s.last_tested_pos.1 + s.step),
             { s with current_offset := some s.last_tested_pos.1 })
  else .ok (some (s.last_tested_pos.1 - s.step), s)

/-- `OffsetHelper.last_tested_position(position, triggered)` (source lines
232-236): records the outcome, marks the search started, and halves the
step when `triggered` is true (`if triggered: self.step = self.step / 2.0`,
lines 235-236). -/
def OffsetHelper.last_tested_position (s : OffsetHelper) (position : ℚ)
    (triggered : Bool) : OffsetHelper :=
  { s with
    last_tested_pos := (position, triggered)
    started := true
    step := if triggered then s.step / 2 else s.step }

/-- The vibration loop of `ZVibrationHelper.vibrate_n` (source lines 93-98)
and of `ResonanceZProbe._test` (lines 337-340): starting from
`counter = 0`, `while counter <= n: self._vibrate_(); counter += 1`.
`vibrate_loop n counter` counts how many times `_vibrate_` runs from a
given counter value. -/
def vibrate_loop (n : ℕ) (counter : ℕ) : ℕ :=
  if h : counter ≤ n then vibrate_loop n (counter + 1) + 1 else 0
termination_by n + 1 - counter
decreasing_by omega

/-- Number of `_vibrate_` calls performed by `ZVibrationHelper.vibrate_n(n)`
(source lines 93-98). -/
def vibrate_n_calls (n : ℕ) : ℕ := vibrate_loop n 0

/-- Number of `_vibrate_` calls performed by the inline loop of
`ResonanceZProbe._test` (source lines 337-340), parameterised by
`cycle_per_test`. -/
def test_cycle_calls (cycle_per_test : ℕ) : ℕ := vibrate_loop cycle_per_test 0

/-- `np.median` over a list of exact rationals: sort, then take the middle
element (odd length) or the mean of the two middle elements (even length).
On an empty array numpy yields NaN, but the median of an empty sample set
is never consumed in `_test` (the axis arrays are empty too), so the value
`0` here is unobservable. -/
def np_median (xs : List ℚ) : ℚ :=
  let s := List.insertionSort (· ≤ ·) xs
  let n := xs.length
  if n = 0 then 0
  else if n % 2 = 1 then s.getD (n / 2) 0
  else (s.getD (n / 2 - 1) 0 + s.getD (n / 2) 0) / 2

/-- The metric computation of `ResonanceZProbe._test` (source lines
341-363): subtract the per-axis median from the z samples, count samples
with `z > amp_threshold or z < -amp_threshold`, divide by the number of
timestamps; the `except ZeroDivisionError` branch (lines 362-363) sets the
rate to `0` when there are no timestamps, which the `if` models. -/
def test_rate_above_tr (timestamps z_data : List ℚ) (amp_threshold : ℚ) : ℚ :=
  let z := z_data.map (fun v => v - np_median z_data)
  let num_above :=
    (z.filter (fun v => decide (amp_threshold < v) || decide (v < -amp_threshold))).length
  if timestamps.length = 0 then 0
  else (num_above : ℚ) / (timestamps.length : ℚ)

/-- The configuration options of `ResonanceZProbe.__init__` that feed the
`babystep_probe` loop (source lines 247-259).  `samples_tolerance` is read
with default `None` (line 248), hence `Option ℚ`; `probe_z` is the third
coordinate of `probe_points` (line 259). -/
structure ProbeCfg where
  step_size : ℚ
  samples_tolerance : Option ℚ
  rate_above_threshold : ℚ
  safe_min_z : ℚ
  probe_z : ℚ
deriving Repr, DecidableEq

/-- The `OffsetHelper` the orchestrator constructs (source lines 294-296):
`OffsetHelper(self.probe_points[2], self.step_size, self.tolerance)` — the
third positional argument is the `samples_tolerance` config value, so the
constructor default `0.005` is bypassed. -/
def mk_offset_helper (cfg : ProbeCfg) : OffsetHelper :=
  OffsetHelper.init cfg.probe_z cfg.step_size cfg.samples_tolerance

/-- Ways the `babystep_probe` loop can stop other than by its own exit
conditions: `fuelOut` is an artifact of the fuel parameter bounding the
unrolling; `typeErr` models the uncaught `TypeError` from
`OffsetHelper.next_position` with `min_precision = None`. -/
inductive LoopStop
  | fuelOut
  | typeErr
deriving Repr, DecidableEq

/-- The loop of `ResonanceZProbe.babystep_probe` (source lines 302-312):
`while curr_z >= self.safe_min_z`, break when the helper is finished,
measure (abstracted as `metric : ℚ → ℚ`, the value `_test` returns at a
height), report `results >= self.rate_above_threshold` to the helper, and
move to the helper's next position.  A `none` next position would make the
next `curr_z >= safe_min_z` comparison raise a `TypeError` in Python, so it
maps to `.error .typeErr` as well. -/
def babystep_loop (metric : ℚ → ℚ) (cfg : ProbeCfg) :
    ℕ → ℚ → OffsetHelper → Except LoopStop OffsetHelper
  | 0, _, _ => .error .fuelOut
  | fuel + 1, curr_z, s =>
    if cfg.safe_min_z ≤ curr_z then
      if s.finished then .ok s
      else
        let results := metric curr_z
        let s1 := s.last_tested_position curr_z
          (decide (cfg.rate_above_threshold ≤ results))
        match s1.next_position with
        | .error _ => .error .typeErr
        | .ok (none, _) => .error .typeErr
        | .ok (some nz, s2) => babystep_loop metric cfg fuel nz s2
    else .ok s

/-- End-of-run state of `babystep_probe` (source lines 297-312): the loop
is entered at `curr_z = self.probe_points[2]` with a fresh helper. -/
def babystep_probe (metric : ℚ → ℚ) (cfg : ProbeCfg) (fuel : ℕ) :
    Except LoopStop OffsetHelper :=
  babystep_loop metric cfg fuel cfg.probe_z (mk_offset_helper cfg)

/-- Console reports `babystep_probe` can emit about the outcome of the run.
The source has exactly one such report: the success message of lines
316-324, carrying `self.offset_helper.current_offset`. -/
inductive Report
  | success (off : Option ℚ)
deriving Repr, DecidableEq

/-- The outcome reporting after the loop of `babystep_probe` (source lines
316-324): `if self.offset_helper.finished: gcmd.respond_info(...)` — a
success message when converged, and nothing otherwise.  A propagating
`TypeError` (or exhausted fuel) also reaches no report. -/
def babystep_reports (r : Except LoopStop OffsetHelper) : List Report :=
  match r with
  | .ok s => if s.finished then [Report.success s.current_offset] else []
  | .error _ => []

/-- Closed form of the vibration loop: starting at `counter`, the body runs
once for every counter value in `[counter, n]`. -/
theorem vibrate_loop_closed (fuel : ℕ) : ∀ n counter : ℕ, n + 1 - counter ≤ fuel →
    vibrate_loop n counter = n + 1 - counter := by
  induction fuel with
  | zero =>
    intro n counter hle
    rw [vibrate_loop]
    have hn : ¬ counter ≤ n := by omega
    rw [dif_neg hn]
    omega
  | succ k ih =>
    intro n counter hle
    rw [vibrate_loop]
    by_cases hc : counter ≤ n
    · rw [dif_pos hc, ih n (counter + 1) (by omega)]
      omega
    · rw [dif_neg hc]
      omega

/-- The vibration loop runs `n + 1` times when started at `counter = 0`. -/
theorem vibrate_loop_eq (n counter : ℕ) : vibrate_loop n counter = n + 1 - counter :=
  vibrate_loop_closed (n + 1 - counter) n counter le_rfl

/-- `next_position` can flip `finished` from `false` to `true` only when the
most recent recorded outcome was a positive detection and the current step
is at or below the (present) minimum precision. -/
theorem next_position_sets_finished_only (t t' : OffsetHelper) (v : Option ℚ)
    (ht : t.finished = false) (hnp : t.next_position = .ok (v, t'))
    (htf : t'.finished = true) :
    t.last_tested_pos.2 = true ∧ ∃ q, t.min_precision = some q ∧ t.step ≤ q := by
  rw [OffsetHelper.next_position] at hnp
  rw [ht] at hnp
  simp only [Bool.false_eq_true, if_false] at hnp
  split at hnp
  · rw [Except.ok.injEq, Prod.mk.injEq] at hnp
    rw [← hnp.2] at htf
    simp [ht] at htf
  · split at hnp
    · split at hnp
      · exact absurd hnp (by simp)
      next q hq =>
        split at hnp
        next hstep =>
          exact ⟨by assumption, q, hq, hstep⟩
        · rw [Except.ok.injEq, Prod.mk.injEq] at hnp
          rw [← hnp.2] at htf
          simp [ht] at htf
    · rw [Except.ok.injEq, Prod.mk.injEq] at hnp
      rw [← hnp.2] at htf
      simp [ht] at htf

/-- `next_position` never changes the step size of the state it returns. -/
theorem next_position_preserves_step (t t' : OffsetHelper) (v : Option ℚ)
    (hnp : t.next_position = .ok (v, t')) : t'.step = t.step := by
  rw [OffsetHelper.next_position] at hnp
  split at hnp
  · rw [Except.ok.injEq, Prod.mk.injEq] at hnp
    rw [← hnp.2]
  · split at hnp
    · rw [Except.ok.injEq, Prod.mk.injEq] at hnp
      rw [← hnp.2]
    · split at hnp
      · split at hnp
        · exact absurd hnp (by simp)
        · split at hnp <;>
          · rw [Except.ok.injEq, Prod.mk.injEq] at hnp
            rw [← hnp.2]
      · rw [Except.ok.injEq, Prod.mk.injEq] at hnp
        rw [← hnp.2]

/-- C6 counterexample: with `cycles = 2` the measurement loop performs
`3` vibration cycles, not `2` — the `while counter <= n` loop of
`vibrate_n` and `_test` runs `n + 1` times. -/
theorem c6_counterexample :
    test_cycle_calls 2 = 3 ∧ vibrate_n_calls 2 = 3 ∧ test_cycle_calls 2 ≠ 2 := by
  rw [test_cycle_calls, vibrate_n_calls, vibrate_loop_eq]
  omega

/-- C6 (amended): for every positive integer `cycles`, one call to the
per-height measurement routine invokes the oscillation driver's one-cycle
motion exactly `cycles + 1` times (the `while counter <= n` bound is
inclusive), and `vibrate_n` behaves the same way. -/
theorem c6_cycle_count (cycles : ℕ) (hpos : 0 < cycles) :
    test_cycle_calls cycles = cycles + 1 ∧ vibrate_n_calls cycles = cycles + 1 := by
  rw [test_cycle_calls, vibrate_n_calls, vibrate_loop_eq]
  omega

/-- Witness for `c6_cycle_count` at `cycles = 2`. -/
theorem c6_cycle_count_witness :
    0 < 2 ∧ (test_cycle_calls 2 = 2 + 1 ∧ vibrate_n_calls 2 = 2 + 1) :=
  ⟨by decide, c6_cycle_count 2 (by decide)⟩

/-- C7: on an empty retrieved sample sequence the per-height metric of
`_test` is exactly `0` for every amplitude threshold; the
`ZeroDivisionError` is caught (modelled by the total `if`), so no division
fault escapes. -/
theorem c7_zero_samples (amp_threshold : ℚ) :
    test_rate_above_tr [] [] amp_threshold = 0 := by
  rw [test_rate_above_tr]
  simp

/-- C1 counterexample: reporting a non-detected outcome at height `1` with
step `1/100` leaves the step at `1/100` — it is not halved to `1/200` as
the claim states; instead a positive outcome halves it. -/
theorem c1_counterexample :
    ((OffsetHelper.init 1 (1/100) (some (5/1000))).last_tested_position 1 false).step
        = 1/100 ∧
    (1/100 : ℚ) ≠ 1/200 ∧
    ((OffsetHelper.init 1 (1/100) (some (5/1000))).last_tested_position 1 true).step
        = 1/200 := by
  refine ⟨rfl, by norm_num, ?_⟩
  rw [OffsetHelper.init, OffsetHelper.last_tested_position]
  norm_num

/-- C1 (amended): in the searching state, when an outcome with
`detected = false` is reported for height `h`, the next height to test is
`h - currentStep` and `currentStep` is left unchanged; halving of
`currentStep` occurs only on a positive (detected) outcome, never on a
negative one. -/
theorem c1_negative_outcome (s : OffsetHelper) (h : ℚ) (hf : s.finished = false) :
    (s.last_tested_position h false).step = s.step ∧
    (s.last_tested_position h false).next_position =
      .ok (some (h - s.step), s.last_tested_position h false) ∧
    ∀ h2 : ℚ, (s.last_tested_position h2 true).step = s.step / 2 := by
  refine ⟨rfl, ?_, fun h2 => rfl⟩
  rw [OffsetHelper.next_position, OffsetHelper.last_tested_position]
  simp [hf]

/-- Witness for `c1_negative_outcome` on a fresh helper at height `1` with
step `1/100`. -/
theorem c1_negative_outcome_witness :
    (OffsetHelper.init 1 (1/100) (some (5/1000))).finished = false ∧
    (((OffsetHelper.init 1 (1/100) (some (5/1000))).last_tested_position 1 false).step
        = (OffsetHelper.init 1 (1/100) (some (5/1000))).step ∧
      ((OffsetHelper.init 1 (1/100) (some (5/1000))).last_tested_position 1 false).next_position
        = .ok (some (1 - (OffsetHelper.init 1 (1/100) (some (5/1000))).step),
            (OffsetHelper.init 1 (1/100) (some (5/1000))).last_tested_position 1 false) ∧
      ∀ h2 : ℚ,
        ((OffsetHelper.init 1 (1/100) (some (5/1000))).last_tested_position h2 true).step
          = (OffsetHelper.init 1 (1/100) (some (5/1000))).step / 2) :=
  ⟨rfl, c1_negative_outcome (OffsetHelper.init 1 (1/100) (some (5/1000))) 1 rfl⟩

/-- C3 counterexample: with step `1/100` and minimum precision `5/1000`,
after a first `false` outcome at height `1` the step is still `1/100`, not
`5/1000` as the claim states (no halving happens on a negative outcome). -/
theorem c3_counterexample :
    ((OffsetHelper.init 1 (1/100) (some (5/1000))).last_tested_position 1 false).step
        = 1/100 ∧
    (1/100 : ℚ) ≠ 5/1000 := by
  exact ⟨rfl, by norm_num⟩

/-- C3 (amended): with step `1/100` and minimum precision `5/1000`, after a
first `false` outcome at height `1` the step remains `1/100` and the next
height is `99/100`; after a subsequent `true` outcome at `99/100` the step
is halved to `5/1000`, which is at the minimum precision, so the following
`next_position` call marks the search converged with offset `99/100`
(while itself returning `99/100 + 5/1000`). -/
theorem c3_scenario :
    ((OffsetHelper.init 1 (1/100) (some (5/1000))).last_tested_position 1 false).step
        = 1/100 ∧
    ((OffsetHelper.init 1 (1/100) (some (5/1000))).last_tested_position 1 false).next_position
        = .ok (some (99/100),
            (OffsetHelper.init 1 (1/100) (some (5/1000))).last_tested_position 1 false) ∧
    (((OffsetHelper.init 1 (1/100) (some (5/1000))).last_tested_position 1
        false).last_tested_position (99/100) true).step = 5/1000 ∧
    (((OffsetHelper.init 1 (1/100) (some (5/1000))).last_tested_position 1
        false).last_tested_position (99/100) true).next_position
      = .ok (some (99/100 + 5/1000),
          { last_tested_pos := (99/100, true), step := 5/1000,
            min_precision := some (5/1000), current_offset := some (99/100),
            finished := true, started := true }) := by
  refine ⟨rfl, ?_, ?_, ?_⟩
  · rw [OffsetHelper.next_position]
    norm_num [OffsetHelper.init, OffsetHelper.last_tested_position]
  · norm_num [OffsetHelper.init, OffsetHelper.last_tested_position]
  · rw [OffsetHelper.next_position]
    norm_num [OffsetHelper.init, OffsetHelper.last_tested_position]

/-- C4 counterexample: a `true` outcome halves the step (`1/100` becomes
`1/200`), so the step after a call does change even though the outcome was
not `false` — refuting "equality unless the outcome at call n was false". -/
theorem c4_counterexample :
    ((OffsetHelper.init 1 (1/100) (some (5/1000))).last_tested_position 1 true).step
        = 1/200 ∧
    (1/200 : ℚ) ≠ 1/100 := by
  constructor
  · rw [OffsetHelper.init, OffsetHelper.last_tested_position]
    norm_num
  · norm_num

/-- C4 (amended): across any `last_tested_position` call the step is
monotonically non-increasing, with equality exactly when the reported
outcome was `false`; a `true` outcome halves it; it stays strictly
positive; and `next_position` never changes the step. -/
theorem c4_monotone_step (s : OffsetHelper) (h : ℚ) (b : Bool) (hpos : 0 < s.step) :
    (s.last_tested_position h b).step ≤ s.step ∧
    (b = false → (s.last_tested_position h b).step = s.step) ∧
    (b = true → (s.last_tested_position h b).step = s.step / 2) ∧
    0 < (s.last_tested_position h b).step ∧
    ∀ (v : Option ℚ) (t' : OffsetHelper),
      s.next_position = .ok (v, t') → t'.step = s.step := by
  cases b
  · exact ⟨le_rfl, fun _ => rfl, fun hc => absurd hc (by simp), hpos,
      fun v t' hnp => next_position_preserves_step s t' v hnp⟩
  · refine ⟨?_, fun hc => absurd hc (by simp), fun _ => rfl, ?_,
      fun v t' hnp => next_position_preserves_step s t' v hnp⟩
    · show s.step / 2 ≤ s.step
      linarith
    · show 0 < s.step / 2
      linarith

/-- Witness for `c4_monotone_step` on a fresh helper with step `1/100`,
reporting a positive outcome at height `1`. -/
theorem c4_monotone_step_witness :
    0 < (OffsetHelper.init 1 (1/100) (some (5/1000))).step ∧
    (((OffsetHelper.init 1 (1/100) (some (5/1000))).last_tested_position 1 true).step
        ≤ (OffsetHelper.init 1 (1/100) (some (5/1000))).step ∧
      (true = false →
        ((OffsetHelper.init 1 (1/100) (some (5/1000))).last_tested_position 1 true).step
          = (OffsetHelper.init 1 (1/100) (some (5/1000))).step) ∧
      (true = true →
        ((OffsetHelper.init 1 (1/100) (some (5/1000))).last_tested_position 1 true).step
          = (OffsetHelper.init 1 (1/100) (some (5/1000))).step / 2) ∧
      0 < ((OffsetHelper.init 1 (1/100) (some (5/1000))).last_tested_position 1 true).step ∧
      ∀ (v : Option ℚ) (t' : OffsetHelper),
        (OffsetHelper.init 1 (1/100) (some (5/1000))).next_position = .ok (v, t') →
        t'.step = (OffsetHelper.init 1 (1/100) (some (5/1000))).step) :=
  ⟨by norm_num [OffsetHelper.init],
   c4_monotone_step (OffsetHelper.init 1 (1/100) (some (5/1000))) 1 true
     (by norm_num [OffsetHelper.init])⟩

/-- C2: after a `true` outcome at height `h` is reported in the searching
state, the following `next_position` call records `h` as the best-known
offset (`current_offset = some h`), returns `h` plus the current (halved)
step, and sets `finished` exactly when that step is at or below the
minimum precision; moreover `finished` can flip to `true` only through a
`next_position` call whose last recorded outcome was positive with step at
or below the minimum precision — `last_tested_position` never sets it. -/
theorem c2_positive_outcome (s : OffsetHelper) (h p : ℚ)
    (hf : s.finished = false) (hm : s.min_precision = some p) :
    (∃ s2 : OffsetHelper,
      (s.last_tested_position h true).next_position
          = .ok (some (h + s.step / 2), s2) ∧
      s2.current_offset = some h ∧
      (s2.finished = true ↔ s.step / 2 ≤ p)) ∧
    (∀ (t t' : OffsetHelper) (v : Option ℚ), t.finished = false →
      t.next_position = .ok (v, t') → t'.finished = true →
      t.last_tested_pos.2 = true ∧ ∃ q, t.min_precision = some q ∧ t.step ≤ q) ∧
    (∀ (t : OffsetHelper) (h2 : ℚ) (b : Bool),
      (t.last_tested_position h2 b).finished = t.finished) := by
  refine ⟨?_, fun t t' v ht hnp htf =>
      next_position_sets_finished_only t t' v ht hnp htf,
    fun t h2 b => rfl⟩
  rw [OffsetHelper.next_position]
  by_cases hc : s.step / 2 ≤ p
  · refine ⟨{ s.last_tested_position h true with
        current_offset := some h, finished := true }, ?_, rfl, by simp [hc]⟩
    simp [OffsetHelper.last_tested_position, hf, hm, hc]
  · refine ⟨{ s.last_tested_position h true with current_offset := some h },
      ?_, rfl, by simp [OffsetHelper.last_tested_position, hc, hf]⟩
    simp [OffsetHelper.last_tested_position, hf, hm, hc]

/-- Witness for `c2_positive_outcome` on a fresh helper at height `99/100`
with step `1/100` and minimum precision `5/1000`. -/
theorem c2_positive_outcome_witness :
    (OffsetHelper.init 1 (1/100) (some (5/1000))).finished = false ∧
    (OffsetHelper.init 1 (1/100) (some (5/1000))).min_precision = some (5/1000) ∧
    ((∃ s2 : OffsetHelper,
      ((OffsetHelper.init 1 (1/100) (some (5/1000))).last_tested_position (99/100)
          true).next_position
        = .ok (some (99/100 + (OffsetHelper.init 1 (1/100) (some (5/1000))).step / 2), s2) ∧
      s2.current_offset = some (99/100) ∧
      (s2.finished = true ↔
        (OffsetHelper.init 1 (1/100) (some (5/1000))).step / 2 ≤ 5/1000)) ∧
    (∀ (t t' : OffsetHelper) (v : Option ℚ), t.finished = false →
      t.next_position = .ok (v, t') → t'.finished = true →
      t.last_tested_pos.2 = true ∧ ∃ q, t.min_precision = some q ∧ t.step ≤ q) ∧
    (∀ (t : OffsetHelper) (h2 : ℚ) (b : Bool),
      (t.last_tested_position h2 b).finished = t.finished)) :=
  ⟨rfl, rfl,
   c2_positive_outcome (OffsetHelper.init 1 (1/100) (some (5/1000))) (99/100)
     (5/1000) rfl rfl⟩

/-- C5: once `finished` is set, `next_position` always returns
`current_offset` and leaves the state untouched, so any number of repeated
calls returns the identical value; a further `last_tested_position` call
leaves `finished` and `current_offset` unchanged, so the query still
returns the same fixed offset afterwards. -/
theorem c5_converged_stable (s : OffsetHelper) (hf : s.finished = true) :
    s.next_position = .ok (s.current_offset, s) ∧
    ∀ (h : ℚ) (b : Bool),
      (s.last_tested_position h b).finished = true ∧
      (s.last_tested_position h b).current_offset = s.current_offset ∧
      (s.last_tested_position h b).next_position
        = .ok (s.current_offset, s.last_tested_position h b) := by
  constructor
  · rw [OffsetHelper.next_position]
    simp [hf]
  · intro h b
    refine ⟨hf, rfl, ?_⟩
    rw [OffsetHelper.next_position]
    simp [OffsetHelper.last_tested_position, hf]

/-- Witness for `c5_converged_stable` on a converged helper with offset
`99/100`. -/
theorem c5_converged_stable_witness :
    OffsetHelper.finished
      { last_tested_pos := (99/100, true), step := 5/1000,
        min_precision := some (5/1000), current_offset := some (99/100),
        finished := true, started := true } = true ∧
    (OffsetHelper.next_position
      { last_tested_pos := (99/100, true), step := 5/1000,
        min_precision := some (5/1000), current_offset := some (99/100),
        finished := true, started := true }
      = .ok (some (99/100),
          { last_tested_pos := (99/100, true), step := 5/1000,
            min_precision := some (5/1000), current_offset := some (99/100),
            finished := true, started := true }) ∧
    ∀ (h : ℚ) (b : Bool),
      (OffsetHelper.last_tested_position
        { last_tested_pos := (99/100, true), step := 5/1000,
          min_precision := some (5/1000), current_offset := some (99/100),
          finished := true, started := true } h b).finished = true ∧
      (OffsetHelper.last_tested_position
        { last_tested_pos := (99/100, true), step := 5/1000,
          min_precision := some (5/1000), current_offset := some (99/100),
          finished := true, started := true } h b).current_offset = some (99/100) ∧
      (OffsetHelper.last_tested_position
        { last_tested_pos := (99/100, true), step := 5/1000,
          min_precision := some (5/1000), current_offset := some (99/100),
          finished := true, started := true } h b).next_position
        = .ok (some (99/100),
            OffsetHelper.last_tested_position
              { last_tested_pos := (99/100, true), step := 5/1000,
                min_precision := some (5/1000), current_offset := some (99/100),
                finished := true, started := true } h b)) :=
  ⟨rfl, c5_converged_stable
    { last_tested_pos := (99/100, true), step := 5/1000,
      min_precision := some (5/1000), current_offset := some (99/100),
      finished := true, started := true } rfl⟩

/-- C10: `next_position` is not a pure query.  On a started, unfinished
state whose last outcome is `(h, true)` with step at or below the minimum
precision, the first call returns `h + step` while setting `finished` and
`current_offset := some h`, and only the immediately following call
returns `h`; with a nonzero step the two successive calls return different
values. -/
theorem c10_impure_query (s : OffsetHelper) (h p : ℚ) (hs : s.started = true)
    (hf : s.finished = false) (hl : s.last_tested_pos = (h, true))
    (hm : s.min_precision = some p) (hle : s.step ≤ p) (hnz : s.step ≠ 0) :
    s.next_position
        = .ok (some (h + s.step), { s with current_offset := some h, finished := true }) ∧
    OffsetHelper.next_position { s with current_offset := some h, finished := true }
        = .ok (some h, { s with current_offset := some h, finished := true }) ∧
    h + s.step ≠ h := by
  refine ⟨?_, ?_, ?_⟩
  · rw [OffsetHelper.next_position]
    simp [hf, hs, hl, hm, hle]
  · rw [OffsetHelper.next_position]
    simp
  · intro heq
    exact hnz (by linarith [heq])

/-- Witness for `c10_impure_query` on a started helper at `(99/100, true)`
with step `5/1000` equal to the minimum precision. -/
theorem c10_impure_query_witness :
    OffsetHelper.started
      { last_tested_pos := (99/100, true), step := 5/1000,
        min_precision := some (5/1000), current_offset := none,
        finished := false, started := true } = true ∧
    (OffsetHelper.next_position
      { last_tested_pos := (99/100, true), step := 5/1000,
        min_precision := some (5/1000), current_offset := none,
        finished := false, started := true }
      = .ok (some (99/100 + 5/1000),
          { last_tested_pos := (99/100, true), step := 5/1000,
            min_precision := some (5/1000), current_offset := some (99/100),
            finished := true, started := true }) ∧
    OffsetHelper.next_position
      { last_tested_pos := (99/100, true), step := 5/1000,
        min_precision := some (5/1000), current_offset := some (99/100),
        finished := true, started := true }
      = .ok (some (99/100),
          { last_tested_pos := (99/100, true), step := 5/1000,
            min_precision := some (5/1000), current_offset := some (99/100),
            finished := true, started := true }) ∧
    (99/100 : ℚ) + 5/1000 ≠ 99/100) :=
  ⟨rfl, c10_impure_query
    { last_tested_pos := (99/100, true), step := 5/1000,
      min_precision := some (5/1000), current_offset := none,
      finished := false, started := true } (99/100) (5/1000)
    rfl rfl rfl rfl le_rfl (by norm_num)⟩

/-- C8 counterexample: a run whose metric never reaches the decision level
(metric constantly `0`) walks down from `z = 2` and exits when the height
drops below `safe_min_z = 199/100` without converging — and the run emits
no report at all: there is no distinct `SafetyLimitReached` outcome, only
the absence of the success message (source lines 316-324 print nothing
when `finished` is false). -/
theorem c8_counterexample :
    babystep_probe (fun _ => 0) ⟨1/100, some (5/1000), 15/1000, 199/100, 2⟩ 10
      = .ok { last_tested_pos := (199/100, false), step := 1/100,
              min_precision := some (5/1000), current_offset := none,
              finished := false, started := true } ∧
    babystep_reports
      (babystep_probe (fun _ => 0) ⟨1/100, some (5/1000), 15/1000, 199/100, 2⟩ 10)
      = [] := by
  have hrun :
      babystep_probe (fun _ => 0) ⟨1/100, some (5/1000), 15/1000, 199/100, 2⟩ 10
        = .ok { last_tested_pos := (199/100, false), step := 1/100,
                min_precision := some (5/1000), current_offset := none,
                finished := false, started := true } := by
    rw [babystep_probe]
    norm_num [babystep_loop, mk_offset_helper, OffsetHelper.init,
      OffsetHelper.last_tested_position, OffsetHelper.next_position]
  refine ⟨hrun, ?_⟩
  rw [hrun, babystep_reports]
  simp

/-- C8 (amended): when the loop of `babystep_probe` terminates with the
helper not converged (which is what happens when the height drops below
`safe_min_z` before convergence), the run ends without any outcome report:
the success message is not printed — the safety stop is not treated as a
converged offset — but no distinct `SafetyLimitReached` outcome is
reported either. -/
theorem c8_safety_stop (metric : ℚ → ℚ) (cfg : ProbeCfg) (fuel : ℕ) (z : ℚ)
    (s s' : OffsetHelper) (hrun : babystep_loop metric cfg fuel z s = .ok s')
    (hf : s'.finished = false) :
    babystep_reports (babystep_loop metric cfg fuel z s) = [] ∧
    ∀ off : Option ℚ,
      Report.success off ∉ babystep_reports (babystep_loop metric cfg fuel z s) := by
  rw [hrun, babystep_reports]
  simp [hf]

/-- Witness for `c8_safety_stop` on the run of `c8_counterexample`. -/
theorem c8_safety_stop_witness :
    babystep_loop (fun _ => 0) ⟨1/100, some (5/1000), 15/1000, 199/100, 2⟩ 10 2
        (mk_offset_helper ⟨1/100, some (5/1000), 15/1000, 199/100, 2⟩)
      = .ok { last_tested_pos := (199/100, false), step := 1/100,
              min_precision := some (5/1000), current_offset := none,
              finished := false, started := true } ∧
    (babystep_reports
        (babystep_loop (fun _ => 0) ⟨1/100, some (5/1000), 15/1000, 199/100, 2⟩ 10 2
          (mk_offset_helper ⟨1/100, some (5/1000), 15/1000, 199/100, 2⟩)) = [] ∧
      ∀ off : Option ℚ,
        Report.success off ∉ babystep_reports
          (babystep_loop (fun _ => 0) ⟨1/100, some (5/1000), 15/1000, 199/100, 2⟩ 10 2
            (mk_offset_helper ⟨1/100, some (5/1000), 15/1000, 199/100, 2⟩))) := by
  have hrun :
      babystep_loop (fun _ => 0) ⟨1/100, some (5/1000), 15/1000, 199/100, 2⟩ 10 2
          (mk_offset_helper ⟨1/100, some (5/1000), 15/1000, 199/100, 2⟩)
        = .ok { last_tested_pos := (199/100, false), step := 1/100,
                min_precision := some (5/1000), current_offset := none,
                finished := false, started := true } := by
    norm_num [babystep_loop, mk_offset_helper, OffsetHelper.init,
      OffsetHelper.last_tested_position, OffsetHelper.next_position]
  exact ⟨hrun, c8_safety_stop (fun _ => 0) _ 10 2 _ _ hrun rfl⟩

/-- C9: the orchestrator always constructs the `OffsetHelper` with
`min_precision` equal to the `samples_tolerance` config value (the
constructor's declared default `5/1000` is bypassed by the positional
argument), so when the option is absent (`none`) the first positive
detection makes the following `next_position` call hit the
`step <= min_precision` comparison against `None` and raise a
`TypeError`, modelled as `.error ()`. -/
theorem c9_none_tolerance (cfg : ProbeCfg) :
    (mk_offset_helper cfg).min_precision = cfg.samples_tolerance ∧
    OffsetHelper.default_min_precision = 5/1000 ∧
    (cfg.samples_tolerance = none → ∀ h : ℚ,
      ((mk_offset_helper cfg).last_tested_position h true).next_position
        = .error ()) := by
  refine ⟨rfl, rfl, fun hnone h => ?_⟩
  rw [OffsetHelper.next_position]
  simp [mk_offset_helper, OffsetHelper.init, OffsetHelper.last_tested_position,
    hnone]

/-- Witness for `c9_none_tolerance` at a config with `samples_tolerance`
absent. -/
theorem c9_none_tolerance_witness :
    (mk_offset_helper ⟨1/100, none, 15/1000, 1, 2⟩).min_precision
        = (⟨1/100, none, 15/1000, 1, 2⟩ : ProbeCfg).samples_tolerance ∧
    ((mk_offset_helper ⟨1/100, none, 15/1000, 1, 2⟩).last_tested_position 2
        true).next_position = .error () :=
  ⟨(c9_none_tolerance ⟨1/100, none, 15/1000, 1, 2⟩).1,
   (c9_none_tolerance ⟨1/100, none, 15/1000, 1, 2⟩).2.2 rfl 2⟩
